import Mathlib

/-!
Verification development for the Football-agent repository
(src/agent.py and src/recommander.py).

The Python code is shallowly embedded: every external HTTP call is an
oracle argument (an `Except` value modelling either a transport/parse
failure or the decoded response), dictionaries decoded from JSON are
modelled either as records with `Option` fields or as the `JVal`
inductive below, and caught Python exceptions become explicit branches.
Print statements are side effects with no influence on return values and
are modelled as no-ops.
-/

set_option maxRecDepth 4000
set_option linter.unusedVariables false

/-- A JSON-like value, as produced by `response.json()` in the source. -/
inductive JVal where
  | null
  | str (s : String)
  | num (n : Int)
  | bool (b : Bool)
  | arr (xs : List JVal)
  | obj (kvs : List (String × JVal))

/-- Python dictionary lookup `d.get(k)` on a dictionary: `none` when the
key is absent. On a non-dictionary value Python raises `AttributeError`;
that raising behavior is modelled by `jgetE`, while this total variant
returns `none` there and is used only where the surrounding computation
treats the value as an oracle. -/
def jget : JVal → String → Option JVal
  | .obj kvs, k => (kvs.find? (fun p => p.1 == k)).map (fun p => p.2)
  | _, _ => none

/-- Python truthiness of a JSON value (`if not data`, `a or b`). -/
def jfalsy : JVal → Bool
  | .null => true
  | .str s => s == ""
  | .num n => n == 0
  | .bool b => !b
  | .arr xs => xs.isEmpty
  | .obj kvs => kvs.isEmpty

/-- Python `a or b` on optional JSON values: keep `a` when it is present
and truthy, otherwise evaluate to `b`. -/
def pyOrJ (a b : Option JVal) : Option JVal :=
  match a with
  | some v => if jfalsy v then b else some v
  | none => b

-- ------------------------------------------------------------------
-- TheSportsDB: FootballAgent.fetch_matches (src/agent.py lines 29-61)
-- ------------------------------------------------------------------

/-- One team record from the `searchteams.php` response.
`none` fields model absent dictionary keys. -/
structure TeamRec where
  idTeam : Option String
  strTeam : Option String

/-- Decoded body of the team-search response: the `teams` field,
which may be absent/null (`none`) or a list. -/
structure SearchResp where
  teams : Option (List TeamRec)

/-- One match record from the `eventslast.php` response. -/
structure MatchRec where
  dateEvent : Option String
  strHomeTeam : Option String
  strAwayTeam : Option String

/-- Decoded body of the recent-events response: the `results` field. -/
structure EventsResp where
  results : Option (List MatchRec)

/-- The per-match formatting of `fetch_matches`:
`match.get(key, default)` becomes `Option.getD`. -/
def formatMatch (m : MatchRec) : String :=
  (m.strHomeTeam.getD "") ++ " vs " ++ (m.strAwayTeam.getD "") ++ " - " ++
    (m.dateEvent.getD "Unknown date")

/-- Embedding of `FootballAgent.fetch_matches`. The two HTTP calls are oracles:
`search` is the (already JSON-decoded) team-search response for
`team_name`, `events` maps a team id to the recent-events response.
`Except.error` models any transport or parse failure raised inside the
`try` block; the surrounding `except` then returns `[]`. A missing
`idTeam` or `strTeam` key raises `KeyError` inside the same `try`, so it
also yields `[]`. -/
def fetch_matches (team_name : String) (search : Except Unit SearchResp)
    (events : String → Except Unit EventsResp) (last_n : Nat) : List String :=
  match search with
  | .error _ => []
  | .ok teams_data =>
    match teams_data.teams with
    | none => []
    | some [] => []
    | some (team :: _) =>
      match team.idTeam, team.strTeam with
      | some team_id, some _team_name_full =>
        (match events team_id with
         | .error _ => []
         | .ok matches_data =>
           match matches_data.results with
           | none => []
           | some [] => []
           | some ms => (ms.take last_n).map formatMatch)
      | _, _ => []

-- ------------------------------------------------------------------
-- Serper: _extract_organic_from_response / search_official_site
-- (src/agent.py lines 64-98)
-- ------------------------------------------------------------------

/-- One element of the list built by `_extract_organic_from_response`:
the dictionary `{"title": ..., "link": ..., "snippet": ..., "raw": item}`.
`link` is `Option` because the link probing chain can end in `None`. -/
structure OrgItem where
  title : JVal
  link : Option JVal
  snippet : JVal
  raw : JVal

/-- The title probing chain
`item.get("title") or item.get("name") or item.get("heading") or ""`. -/
def orgTitle (item : JVal) : JVal :=
  (pyOrJ (pyOrJ (pyOrJ (jget item "title") (jget item "name")) (jget item "heading"))
    (some (.str ""))).getD (.str "")

/-- The link probing chain
`item.get("link") or item.get("url") or item.get("displayed_link") or item.get("source")`. -/
def orgLink (item : JVal) : Option JVal :=
  pyOrJ (pyOrJ (pyOrJ (jget item "link") (jget item "url")) (jget item "displayed_link"))
    (jget item "source")

/-- The snippet probing chain
`item.get("snippet") or item.get("description") or item.get("snippet_highlighted") or ""`. -/
def orgSnippet (item : JVal) : JVal :=
  (pyOrJ (pyOrJ (pyOrJ (jget item "snippet") (jget item "description"))
    (jget item "snippet_highlighted")) (some (.str ""))).getD (.str "")

/-- Body of the inner `for item in block` loop. -/
def itemToOrg (item : JVal) : OrgItem :=
  { title := orgTitle item, link := orgLink item, snippet := orgSnippet item, raw := item }

/-- The `for key in (...)` probing loop: the first key whose value is a
non-empty list (`isinstance(block, list) and block`) is mapped; otherwise
the next key is tried. -/
def probeKeys (d : JVal) : List String → List OrgItem
  | [] => []
  | k :: ks =>
    match jget d k with
    | some (.arr (x :: xs)) => (x :: xs).map itemToOrg
    | _ => probeKeys d ks

/-- The fixed ordered list of candidate result-array field names. -/
def serperKeys : List String :=
  ["organic", "organic_results", "organic_results_list", "items", "results"]

/-- Embedding of `FootballAgent._extract_organic_from_response`. The argument is the
value returned by `_post_serper`: `none` when the POST failed. -/
def extract_organic_from_response (data : Option JVal) : List OrgItem :=
  match data with
  | none => []
  | some d => if jfalsy d then [] else probeKeys d serperKeys

/-- Embedding of `FootballAgent.search_official_site`: the first website link from the
Serper results, i.e. `results[0]["link"]`, or `None`. This total variant
collapses the raising inputs (see `search_official_siteE`, the primary
exception-explicit embedding of the same source function); it is kept as
the non-raising restriction used by the `agent_run` plumbing, where the
located link is an input oracle. `search_official_siteE_agrees` shows
the two variants coincide whenever no exception is raised. -/
def search_official_site (data : Option JVal) : Option JVal :=
  match extract_organic_from_response data with
  | [] => none
  | r :: _ => r.link

/-- Test for a JSON object, i.e. a value Python `.get` accepts. -/
def isObj : JVal → Bool
  | .obj _ => true
  | _ => false

/-- Exception-explicit Python `d.get(k)`: on a dictionary, `.ok` of the
lookup (`none` when the key is absent); on any other value `.get` raises
`AttributeError`, modelled as `.error ()`. -/
def jgetE : JVal → String → Except Unit (Option JVal)
  | .obj kvs, k => .ok ((kvs.find? (fun p => p.1 == k)).map (fun p => p.2))
  | _, _ => .error ()

/-- Exception-explicit body of the `for item in block` loop of
`_extract_organic_from_response`: on a dictionary item none of the
probing `.get` chains of `itemToOrg` can raise, so the result is
`itemToOrg item`; on any other item the very first access
`item.get("title")` raises `AttributeError`, before any field of the
output dictionary is built. -/
def itemToOrgE (item : JVal) : Except Unit OrgItem :=
  match item with
  | .obj kvs => .ok (itemToOrg (.obj kvs))
  | _ => .error ()

/-- The accumulating loop `for item in block: out.append(...)` with the
raise made explicit: the first non-dictionary item aborts the whole call
(the partially built `out` is discarded by the exception). -/
def mapItemsE : List JVal → Except Unit (List OrgItem)
  | [] => .ok []
  | item :: rest =>
    match itemToOrgE item with
    | .error e => .error e
    | .ok r =>
      match mapItemsE rest with
      | .error e => .error e
      | .ok rs => .ok (r :: rs)

/-- The `for key in (...)` probing loop with exceptions explicit:
`block = data.get(key)` raises at the first key when `data` is not a
dictionary, and a chosen non-empty list is mapped through `mapItemsE`. -/
def probeKeysE (d : JVal) : List String → Except Unit (List OrgItem)
  | [] => .ok []
  | k :: ks =>
    match jgetE d k with
    | .error e => .error e
    | .ok block =>
      match block with
      | some (.arr (x :: xs)) => mapItemsE (x :: xs)
      | _ => probeKeysE d ks

/-- Exception-explicit `FootballAgent._extract_organic_from_response`.
There is no `try`/`except` in the source function, so any
`AttributeError` propagates to the caller. -/
def extract_organic_from_responseE (data : Option JVal) : Except Unit (List OrgItem) :=
  match data with
  | none => .ok []
  | some d => if jfalsy d then .ok [] else probeKeysE d serperKeys

/-- Exception-explicit `FootballAgent.search_official_site`: the source
has no handler either, so an `AttributeError` raised while probing the
response escapes the function. -/
def search_official_siteE (data : Option JVal) : Except Unit (Option JVal) :=
  match extract_organic_from_responseE data with
  | .error e => .error e
  | .ok [] => .ok none
  | .ok (r :: _) => .ok r.link

/-- The first candidate array found by probing the fixed ordered list of
plausible result-array field names (the first key whose value is a
non-empty list). -/
def firstNonemptyArray (d : JVal) : List String → Option (List JVal)
  | [] => none
  | k :: ks =>
    match jget d k with
    | some (.arr (x :: xs)) => some (x :: xs)
    | _ => firstNonemptyArray d ks

/-- The amended site locator contract, in the words of the spec plus the
raising case the code forces: absence (`.ok none`) when the search
request failed, the response is falsy, or no candidate key yields a
non-empty list; the link field of the first item of the first non-empty
candidate array when that array holds only dictionaries; and an uncaught
`AttributeError` (`.error`) when the truthy response is not a dictionary
or the chosen array contains a non-dictionary item. -/
def siteLocatorSpecE (data : Option JVal) : Except Unit (Option JVal) :=
  match data with
  | none => .ok none
  | some d =>
    if jfalsy d then .ok none
    else if isObj d then
      match firstNonemptyArray d serperKeys with
      | none => .ok none
      | some [] => .ok none
      | some (item :: rest) =>
        if (item :: rest).all isObj then .ok (orgLink item) else .error ()
    else .error ()

-- ------------------------------------------------------------------
-- Page content: FootballAgent.extract_page_content
-- (src/agent.py lines 101-115)
-- ------------------------------------------------------------------

/-- Scan for the first occurrence of `pat` in `s` and return the suffix
of `s` that follows it (the lazy `.*?pat` step of the regex). -/
def findPatRest (pat : List Char) : List Char → Option (List Char)
  | [] => if pat.isEmpty then some [] else none
  | c :: cs =>
    if pat.isPrefixOf (c :: cs) then some ((c :: cs).drop pat.length)
    else findPatRest pat cs

/-- Try to match `openTag [^>]* > .*? closeTag` at the head of `s`
(the regex `<script[^>]*>.*?</script>` with `re.DOTALL`); on success
return the remainder after the match. -/
def matchBlockAt (openTag closeTag : List Char) (s : List Char) : Option (List Char) :=
  if openTag.isPrefixOf s then
    match (s.drop openTag.length).dropWhile (fun c => c != '>') with
    | '>' :: rest => findPatRest closeTag rest
    | _ => none
  else none

/-- Model of `re.sub(openTag [^>]*> .*? closeTag, "", s)`: left-to-right scan,
deleting each match and resuming after it. `fuel` is an upper bound on
the remaining length, making the recursion structural. -/
def removeBlocksAux (openTag closeTag : List Char) : Nat → List Char → List Char
  | _, [] => []
  | 0, s => s
  | fuel + 1, c :: cs =>
    match matchBlockAt openTag closeTag (c :: cs) with
    | some rest => removeBlocksAux openTag closeTag fuel rest
    | none => c :: removeBlocksAux openTag closeTag fuel cs

/-- Model of `re.sub(r"<(open)...>.*?</(close)>", "", s)` wrapper. -/
def removeBlocks (openTag closeTag : String) (s : List Char) : List Char :=
  removeBlocksAux openTag.data closeTag.data s.length s

/-- Model of `re.sub(r"<[^>]+>", " ", s)`: each tag becomes a single space. -/
def stripTagsAux : Nat → List Char → List Char
  | _, [] => []
  | 0, s => s
  | fuel + 1, c :: cs =>
    if c = '<' then
      let inner := cs.takeWhile (fun x => x != '>')
      match cs.drop inner.length with
      | '>' :: rest2 =>
        if inner.isEmpty then c :: stripTagsAux fuel cs
        else ' ' :: stripTagsAux fuel rest2
      | _ => c :: stripTagsAux fuel cs
    else c :: stripTagsAux fuel cs

/-- Python `\s` over the ASCII range (the pages are modelled as ASCII
text; the unicode cases of `\s` are not exercised by any claim). -/
def pyIsSpace (c : Char) : Bool :=
  c = ' ' || c = '\t' || c = '\n' || c = '\r' || c = '\x0b' || c = '\x0c'

/-- Model of `re.sub(r"\s+", " ", s)`: collapse each whitespace run to one space. -/
def collapseWsAux : Nat → List Char → List Char
  | _, [] => []
  | 0, s => s
  | fuel + 1, c :: cs =>
    if pyIsSpace c then ' ' :: collapseWsAux fuel (cs.dropWhile pyIsSpace)
    else c :: collapseWsAux fuel cs

/-- The four `re.sub` passes of `extract_page_content`, in source order. -/
def cleanPageText (content : List Char) : List Char :=
  let c1 := removeBlocks "<script" "</script>" content
  let c2 := removeBlocks "<style" "</style>" c1
  let c3 := stripTagsAux c2.length c2
  collapseWsAux c3.length c3

/-- An HTTP response as seen by `requests.get`: status code and body. -/
structure HttpResp where
  status : Nat
  text : String

/-- Embedding of `FootballAgent.extract_page_content`. The oracle is the outcome of
`requests.get`: `Except.error` for a raised network error. A status of
400 or above makes `raise_for_status` raise; both exceptions are caught
by the `except` block, which returns `""`. Otherwise the body is cleaned
and truncated to 5000 characters (`content[:5000]`). -/
def extract_page_content (resp : Except Unit HttpResp) : String :=
  match resp with
  | .error _ => ""
  | .ok r =>
    if 400 ≤ r.status then ""
    else String.mk ((cleanPageText r.text.data).take 5000)

-- ------------------------------------------------------------------
-- Gemini LLM clients
-- agent.py call_gemini_api (lines 118-132)
-- recommander.py call_gemini_api (lines 7-19)
-- ------------------------------------------------------------------

/-- An HTTP response whose body may or may not decode as JSON:
`json = none` models a `response.json()` parse failure. -/
structure HttpJson where
  status : Nat
  json : Option JVal

/-- Python subscription `v[key]` distinguished by exception class:
`.error` is a `TypeError` (value is not subscriptable by a string),
`.ok none` is a `KeyError`, `.ok (some w)` succeeds. -/
def pySubscrStr : JVal → String → Except Unit (Option JVal)
  | .obj kvs, k => .ok ((kvs.find? (fun p => p.1 == k)).map (fun p => p.2))
  | _, _ => .error ()

/-- Python subscription `v[i]` for a numeric index: `.ok none` is an
`IndexError`, `.error` a `TypeError`; strings are subscriptable. -/
def pySubscrNat : JVal → Nat → Except Unit (Option JVal)
  | .arr xs, i => .ok ((xs.get? i).map id)
  | .str s, i => .ok ((s.data.get? i).map (fun c => JVal.str (String.mk [c])))
  | _, _ => .error ()

/-- Sequencing of subscriptions: a raised `TypeError` or a raised
`KeyError`/`IndexError` stops evaluation at once. -/
def subStep (x : Except Unit (Option JVal)) (f : JVal → Except Unit (Option JVal)) :
    Except Unit (Option JVal) :=
  match x with
  | .error e => .error e
  | .ok none => .ok none
  | .ok (some v) => f v

/-- The extraction `result["candidates"][0]["content"]["parts"][0]["text"]`
shared by both Gemini clients. -/
def geminiChain (result : JVal) : Except Unit (Option JVal) :=
  subStep (pySubscrStr result "candidates") (fun c =>
    subStep (pySubscrNat c 0) (fun c0 =>
      subStep (pySubscrStr c0 "content") (fun ct =>
        subStep (pySubscrStr ct "parts") (fun ps =>
          subStep (pySubscrNat ps 0) (fun p0 =>
            pySubscrStr p0 "text")))))

/-- Embedding of `FootballAgent.call_gemini_api` (src/agent.py). The whole body sits
in one `try ... except Exception`, so a network error, a bad status from
`raise_for_status`, a JSON parse failure, any subscription error, and the
`AttributeError` of `.strip()` on a non-string all yield `""`. -/
def agent_call_gemini_api (post : Except Unit HttpJson) : String :=
  match post with
  | .error _ => ""
  | .ok r =>
    if 400 ≤ r.status then ""
    else
      match r.json with
      | none => ""
      | some result =>
        match geminiChain result with
        | .error _ => ""
        | .ok none => ""
        | .ok (some (.str s)) => s.trim
        | .ok (some _) => ""

/-- Embedding of `call_gemini_api` (src/recommander.py). Only the final extraction is
guarded, and only against `KeyError` and `IndexError` (returning the
placeholder). `requests.post`, `raise_for_status`, `response.json()` and
any `TypeError` during subscription are outside the `try`/`except` and
propagate, modelled as `Except.error`. -/
def recommander_call_gemini_api (post : Except Unit HttpJson) : Except Unit JVal :=
  match post with
  | .error e => .error e
  | .ok r =>
    if 400 ≤ r.status then .error ()
    else
      match r.json with
      | none => .error ()
      | some result =>
        match geminiChain result with
        | .error e => .error e
        | .ok none => .ok (.str "⚠️ No recommendation generated.")
        | .ok (some v) => .ok v

-- ------------------------------------------------------------------
-- Report composer: FootballAgent.analyze_matches (lines 135-155)
-- ------------------------------------------------------------------

/-- The fixed-template analysis prompt of `analyze_matches`
(the f-string of src/agent.py lines 138-154; `{chr(10).join(match_list)}`
is the newline join, `{{`/`}}` are literal braces). -/
def analysisPrompt (match_list : List String) (team_name website_url : String) : String :=
  "\nYou are a football performance analyst. Produce a strict JSON report (no extra text) about the recent matches below.\n\nInput:\nTeam: "
    ++ team_name
    ++ "\nSource: " ++ website_url
    ++ "\nMatches (only use these matches; do not add older data):\n"
    ++ String.intercalate "\n" match_list
    ++ "\n\nTASKS (return only valid JSON):\n1) For each match, produce:\n   - \"match\": \"HomeTeam vs AwayTeam, YYYY-MM-DD\"\n   - \"competition\": short name or null\n   - \"analysis\": \x7b\"weaknesses\":[\"...\"], \"strengths\":[\"...\"], \"successful_tactics\":[\"...\"], \"best_placements\":[\"...\"], \"overall_feedback\":\"...\"\x7d\n2) Include overall \"team_summary\" with \"avg_insights\" and \"priority_actions\".\n3) Return only valid JSON.\n"

/-- The control flow of `analyze_matches` separated from the model call:
`Sum.inl` is the early return taken when `match_list` is empty (no model
call happens), `Sum.inr` carries the prompt handed to the model. -/
def analyze_matches_route (match_list : List String) (team_name website_url : String) :
    Sum String String :=
  if match_list.isEmpty then
    Sum.inl ("No match data found for " ++ team_name ++ " from " ++ website_url ++ ".")
  else
    Sum.inr (analysisPrompt match_list team_name website_url)

/-- Embedding of `FootballAgent.analyze_matches`, with the model call as an oracle
`llm` (in the source it is `self.call_gemini_api`). -/
def analyze_matches (llm : String → String) (match_list : List String)
    (team_name website_url : String) : String :=
  match analyze_matches_route match_list team_name website_url with
  | .inl s => s
  | .inr p => llm p

-- ------------------------------------------------------------------
-- Pipeline: FootballAgent.run (lines 158-163)
-- ------------------------------------------------------------------

mutual
/-- Python `str()` of a JSON value, used when a non-string search link
flows into an f-string. Scalars are rendered as Python renders them;
the rendering of containers is a simplified placeholder (Python would
use the repr of the elements), which no claim inspects. -/
def pyStr : JVal → String
  | .null => "None"
  | .str s => s
  | .num n => toString n
  | .bool b => if b then "True" else "False"
  | .arr xs => "[" ++ pyStrJoin xs ++ "]"
  | .obj kvs => "\x7b" ++ pyStrJoinKv kvs ++ "\x7d"

/-- Comma-joined rendering of a list of JSON values. -/
def pyStrJoin : List JVal → String
  | [] => ""
  | [x] => pyStr x
  | x :: y :: xs => pyStr x ++ ", " ++ pyStrJoin (y :: xs)

/-- Comma-joined rendering of the entries of a JSON object. -/
def pyStrJoinKv : List (String × JVal) → String
  | [] => ""
  | [(k, v)] => k ++ ": " ++ pyStr v
  | (k, v) :: y :: xs => k ++ ": " ++ pyStr v ++ ", " ++ pyStrJoinKv (y :: xs)
end

/-- Embedding of `self.search_official_site(team_name) or "N/A"` followed by the use
of the value as a string: a `None` or falsy link gives `"N/A"`. -/
def websiteUrlOf (serper : Option JVal) : String :=
  match search_official_site serper with
  | none => "N/A"
  | some v => if jfalsy v then "N/A" else pyStr v

/-- Embedding of `FootballAgent.run`: fetch matches, locate the site, extract page
content (discarded), compose the report. Every network interaction is an
oracle; `fetchPage` maps the fetched URL to the page response. -/
def agent_run (team_name : String) (last_n : Nat)
    (search : Except Unit SearchResp) (events : String → Except Unit EventsResp)
    (serper : Option JVal) (fetchPage : String → Except Unit HttpResp)
    (llm : String → String) : String :=
  let match_list := fetch_matches team_name search events last_n
  let website_url := websiteUrlOf serper
  let _page_content :=
    if website_url ≠ "N/A" then extract_page_content (fetchPage website_url) else ""
  analyze_matches llm match_list team_name website_url

/-- The prompt-or-shortcut decision reached by `FootballAgent.run`,
exposed for the independence claims: same `let` chain as `agent_run`,
ending at `analyze_matches_route` instead of the model call. -/
def agent_run_route (team_name : String) (last_n : Nat)
    (search : Except Unit SearchResp) (events : String → Except Unit EventsResp)
    (serper : Option JVal) (fetchPage : String → Except Unit HttpResp) :
    Sum String String :=
  let match_list := fetch_matches team_name search events last_n
  let website_url := websiteUrlOf serper
  let _page_content :=
    if website_url ≠ "N/A" then extract_page_content (fetchPage website_url) else ""
  analyze_matches_route match_list team_name website_url

-- ------------------------------------------------------------------
-- Recommender: src/recommander.py
-- predict_outcome (lines 23-28), llm_recommendation (32-61),
-- run_realtime_recommender (65-95)
-- ------------------------------------------------------------------

/-- Python `range(start, stop, step)` for a positive step. -/
def pyRange (start stop step : Nat) : List Nat :=
  (List.range ((stop - start + step - 1) / step)).map (fun i => start + step * i)

/-- Model of `random.uniform(a, b)`: `a + (b - a) * u` for a unit-interval draw
`u` supplied by the random stream. -/
def pyUniform (a b u : ℚ) : ℚ := a + (b - a) * u

/-- Model of `random.randint(a, b)`: an integer drawn from `[a, b]`, modelled as
`a + ⌊u * (b - a + 1)⌋` for a unit-interval draw `u`. -/
def pyRandint (a b : Int) (u : ℚ) : Int := a + ⌊u * ((b : ℚ) - (a : ℚ) + 1)⌋

/-- Python `round(x, 2)`, on exact rationals. -/
def round2 (q : ℚ) : ℚ := ((round (q * 100) : ℤ) : ℚ) / 100

/-- Embedding of `predict_outcome(live_stats)` (src/recommander.py lines 23-28): the
ML stub. It ignores `live_stats` entirely and returns three rounded
uniform draws; `u1 u2 u3` are the unit-interval draws consumed from the
random stream. The triple is (win, draw, lose). -/
def predict_outcome (_live_stats : α) (u1 u2 u3 : ℚ) : ℚ × ℚ × ℚ :=
  (round2 (pyUniform 0.2 0.6 u1), round2 (pyUniform 0.1 0.4 u2),
    round2 (pyUniform 0.2 0.6 u3))

/-- The simulated real-time statistics dictionary built each iteration
of `run_realtime_recommender`. -/
structure LiveStats where
  minute : String
  team : String
  opponent : String
  score : Int
  opponent_score : Int
  possession : Int
  shots_on_target : Int
  yellow_cards : Int
  red_cards : Int
  avg_player_speed : ℚ

/-- The prompt of `llm_recommendation` (src/recommander.py lines 33-59).
`json.dumps(agent_insights, indent=2)` and the dictionary formatting of
`ml_prediction` are rendered through `pyStr`; the claims never inspect
this text. -/
def llm_recommendation_prompt (live_stats : LiveStats) (agent_insights : JVal)
    (ml_prediction : ℚ × ℚ × ℚ) : String :=
  "You are a professional football performance analyst. Match context: Minute: "
    ++ live_stats.minute ++ " Score: " ++ live_stats.team ++ " "
    ++ toString live_stats.score ++ " - " ++ toString live_stats.opponent_score ++ " "
    ++ live_stats.opponent ++ " Possession: " ++ toString live_stats.possession
    ++ "% Shots on target: " ++ toString live_stats.shots_on_target
    ++ " Yellow cards: " ++ toString live_stats.yellow_cards
    ++ " Red cards: " ++ toString live_stats.red_cards
    ++ " Avg player speed: " ++ toString live_stats.avg_player_speed
    ++ " km/h Insights from the last 5 matches (JSON from analysis agent): "
    ++ pyStr agent_insights
    ++ " ML prediction (probabilities): win " ++ toString ml_prediction.1
    ++ " draw " ++ toString ml_prediction.2.1 ++ " lose " ++ toString ml_prediction.2.2
    ++ " Task: Provide 2-3 tactical recommendations for the coach."

/-- One printed block of the recommendation loop: the loop minute, the
simulated snapshot, the stub prediction, and the (stripped) model text. -/
structure RecBlock where
  minute : Nat
  stats : LiveStats
  ml_pred : ℚ × ℚ × ℚ
  recs : String

/-- Number of unit-interval draws consumed per loop iteration: seven for
the snapshot, three inside `predict_outcome`. -/
def drawsPerIter : Nat := 10

/-- One iteration of the `for minute in range(5, duration*5+1, 5)` loop
of `run_realtime_recommender`. `rng` is the stream of unit-interval
draws; iteration `i = (minute - 5) / 5` consumes draws `10*i .. 10*i+9`
in source order. `llm` is the Gemini call as a (successful) oracle;
`.strip()` becomes `String.trim`. -/
def recommenderIter (team opponent : String) (agent_data : JVal)
    (llm : String → String) (rng : Nat → ℚ) (minute : Nat) : RecBlock :=
  let i := (minute - 5) / 5
  let live_stats : LiveStats :=
    { minute := Nat.repr minute ++ ":00"
      team := team
      opponent := opponent
      score := pyRandint 0 2 (rng (drawsPerIter * i))
      opponent_score := pyRandint 0 2 (rng (drawsPerIter * i + 1))
      possession := pyRandint 40 70 (rng (drawsPerIter * i + 2))
      shots_on_target := pyRandint 0 6 (rng (drawsPerIter * i + 3))
      yellow_cards := pyRandint 0 5 (rng (drawsPerIter * i + 4))
      red_cards := pyRandint 0 1 (rng (drawsPerIter * i + 5))
      avg_player_speed := round2 (pyUniform 5.5 8.5 (rng (drawsPerIter * i + 6))) }
  let ml_pred := predict_outcome live_stats (rng (drawsPerIter * i + 7))
    (rng (drawsPerIter * i + 8)) (rng (drawsPerIter * i + 9))
  let recs := (llm (llm_recommendation_prompt live_stats agent_data ml_pred)).trim
  { minute := minute, stats := live_stats, ml_pred := ml_pred, recs := recs }

/-- Embedding of `run_realtime_recommender` (src/recommander.py lines 65-95):
`agent_data` is the JSON loaded from the report file, and the returned
list holds the per-iteration printed blocks in order. The `time.sleep(2)`
pacing has no effect on the printed values and is not modelled. -/
def run_realtime_recommender (team opponent : String) (agent_data : JVal)
    (llm : String → String) (rng : Nat → ℚ) (duration : Nat) : List RecBlock :=
  (pyRange 5 (duration * 5 + 1) 5).map
    (recommenderIter team opponent agent_data llm rng)

-- ------------------------------------------------------------------
-- Constructor: FootballAgent.__init__ (src/agent.py lines 20-26)
-- ------------------------------------------------------------------

/-- The credential state of a constructed `FootballAgent`. -/
structure FootballAgent where
  gemini_key : String
  serper_key : String

/-- Embedding of `FootballAgent.__init__`: raises `ValueError` (modelled as
`Except.error` carrying the message) when a key is falsy, i.e. the empty
string; otherwise stores both keys. -/
def footballAgentInit (gemini_key serper_key : String) : Except String FootballAgent :=
  if gemini_key = "" then .error "GEMINI_API_KEY not set."
  else if serper_key = "" then .error "SERPER_API_KEY not set."
  else .ok ⟨gemini_key, serper_key⟩

-- ------------------------------------------------------------------
-- Theorems
-- ------------------------------------------------------------------

/-- Concrete behavior of the HTML cleaning pipeline: script blocks are
deleted, other tags become spaces, whitespace runs collapse. -/
theorem extract_page_content_example :
    extract_page_content (.ok ⟨200, "<p>a  b</p><script a>x</script>c"⟩) = " a b c" := by
  decide

/-- Every run of `fetch_matches` is either the empty list or the
formatted take of the event list. -/
theorem fetch_matches_cases (tn : String) (search : Except Unit SearchResp)
    (events : String → Except Unit EventsResp) (n : Nat) :
    fetch_matches tn search events n = [] ∨
      ∃ ms : List MatchRec,
        fetch_matches tn search events n = (ms.take n).map formatMatch := by
  rcases search with e | td
  · exact Or.inl rfl
  · rcases htd : td.teams with _ | (_ | ⟨t, ts⟩)
    · exact Or.inl (by simp [fetch_matches, htd])
    · exact Or.inl (by simp [fetch_matches, htd])
    · rcases hid : t.idTeam with _ | tid
      · exact Or.inl (by simp [fetch_matches, htd, hid])
      · rcases hst : t.strTeam with _ | tn'
        · exact Or.inl (by simp [fetch_matches, htd, hid, hst])
        · rcases hev : events tid with e | ed
          · exact Or.inl (by simp [fetch_matches, htd, hid, hst, hev])
          · rcases hres : ed.results with _ | (_ | ⟨m, ms⟩)
            · exact Or.inl (by simp [fetch_matches, htd, hid, hst, hev, hres])
            · exact Or.inl (by simp [fetch_matches, htd, hid, hst, hev, hres])
            · exact Or.inr ⟨m :: ms, by simp [fetch_matches, htd, hid, hst, hev, hres]⟩

/-- Claim C1: for every team name and count, `fetch_matches` returns at
most `last_n` strings, in upstream order (the formatted take of the
events list, with no re-sorting), each formatted as
`home ++ " vs " ++ away ++ " - " ++ date`; a missing date field becomes
the literal `"Unknown date"` and a missing team name becomes the empty
string in its slot. -/
theorem fetch_matches_c1 (team_name : String) (search : Except Unit SearchResp)
    (events : String → Except Unit EventsResp) (last_n : Nat) :
    (fetch_matches team_name search events last_n).length ≤ last_n ∧
    (∀ (td : SearchResp) (t : TeamRec) (ts : List TeamRec) (tid tnf : String)
        (ed : EventsResp) (ms : List MatchRec),
      search = .ok td → td.teams = some (t :: ts) →
      t.idTeam = some tid → t.strTeam = some tnf →
      events tid = .ok ed → ed.results = some ms →
      fetch_matches team_name search events last_n = (ms.take last_n).map formatMatch) ∧
    (∀ d h a : String,
      formatMatch ⟨some d, some h, some a⟩ = h ++ " vs " ++ a ++ " - " ++ d) ∧
    (∀ m : MatchRec, m.dateEvent = none →
      ∃ p, formatMatch m = p ++ "Unknown date") ∧
    (∀ m : MatchRec, m.strHomeTeam = none →
      formatMatch m =
        "" ++ " vs " ++ (m.strAwayTeam.getD "") ++ " - " ++ (m.dateEvent.getD "Unknown date")) ∧
    (∀ m : MatchRec, m.strAwayTeam = none →
      formatMatch m =
        (m.strHomeTeam.getD "") ++ " vs " ++ "" ++ " - " ++ (m.dateEvent.getD "Unknown date")) := by
  refine ⟨?_, ?_, ?_, ?_, ?_, ?_⟩
  · rcases fetch_matches_cases team_name search events last_n with h | ⟨ms, h⟩
    · simp [h]
    · simp [h, List.length_take]
  · intro td t ts tid tnf ed ms hs htd hid hst hev hres
    subst hs
    cases ms with
    | nil => simp [fetch_matches, htd, hid, hst, hev, hres]
    | cons m ms => simp [fetch_matches, htd, hid, hst, hev, hres]
  · intro d h a; rfl
  · intro m hm
    exact ⟨(m.strHomeTeam.getD "") ++ " vs " ++ (m.strAwayTeam.getD "") ++ " - ",
      by simp [formatMatch, hm]⟩
  · intro m hm; simp [formatMatch, hm]
  · intro m hm; simp [formatMatch, hm]

/-- Concrete instantiation of `fetch_matches_c1`: a two-event response,
one event lacking its date and home-team fields. -/
theorem fetch_matches_c1_witness :
    fetch_matches "Barcelona"
      (.ok ⟨some [⟨some "133739", some "FC Barcelona"⟩]⟩)
      (fun _ => .ok ⟨some [⟨some "2024-01-03", some "Barcelona", some "Getafe"⟩,
                           ⟨none, none, some "Betis"⟩]⟩) 5
      = ["Barcelona vs Getafe - 2024-01-03", " vs Betis - Unknown date"] := by
  have h := (fetch_matches_c1 "Barcelona"
      (.ok ⟨some [⟨some "133739", some "FC Barcelona"⟩]⟩)
      (fun _ => .ok ⟨some [⟨some "2024-01-03", some "Barcelona", some "Getafe"⟩,
                           ⟨none, none, some "Betis"⟩]⟩) 5).2.1
      ⟨some [⟨some "133739", some "FC Barcelona"⟩]⟩
      ⟨some "133739", some "FC Barcelona"⟩ [] "133739" "FC Barcelona"
      ⟨some [⟨some "2024-01-03", some "Barcelona", some "Getafe"⟩,
             ⟨none, none, some "Betis"⟩]⟩
      [⟨some "2024-01-03", some "Barcelona", some "Getafe"⟩, ⟨none, none, some "Betis"⟩]
      rfl rfl rfl rfl rfl rfl
  rw [h]; rfl

/-- Claim C2: `fetch_matches` converts every failure to the empty list
and propagates no exception: a transport/parse error of either call, a
zero-hit team search, a missing key in the team record, and an empty or
missing events list all yield `[]` (the embedding is a total function,
so no exception escapes). -/
theorem fetch_matches_c2 (team_name : String) (search : Except Unit SearchResp)
    (events : String → Except Unit EventsResp) (last_n : Nat) :
    (∀ e, search = .error e → fetch_matches team_name search events last_n = []) ∧
    (∀ td, search = .ok td → td.teams = none →
      fetch_matches team_name search events last_n = []) ∧
    (∀ td, search = .ok td → td.teams = some [] →
      fetch_matches team_name search events last_n = []) ∧
    (∀ td t ts, search = .ok td → td.teams = some (t :: ts) → t.idTeam = none →
      fetch_matches team_name search events last_n = []) ∧
    (∀ td t ts tid, search = .ok td → td.teams = some (t :: ts) →
      t.idTeam = some tid → t.strTeam = none →
      fetch_matches team_name search events last_n = []) ∧
    (∀ td t ts tid tnf e, search = .ok td → td.teams = some (t :: ts) →
      t.idTeam = some tid → t.strTeam = some tnf → events tid = .error e →
      fetch_matches team_name search events last_n = []) ∧
    (∀ td t ts tid tnf ed, search = .ok td → td.teams = some (t :: ts) →
      t.idTeam = some tid → t.strTeam = some tnf → events tid = .ok ed →
      (ed.results = none ∨ ed.results = some []) →
      fetch_matches team_name search events last_n = []) := by
  refine ⟨?_, ?_, ?_, ?_, ?_, ?_, ?_⟩
  · intro e hs; subst hs; rfl
  · intro td hs htd; subst hs; simp [fetch_matches, htd]
  · intro td hs htd; subst hs; simp [fetch_matches, htd]
  · intro td t ts hs htd hid; subst hs; simp [fetch_matches, htd, hid]
  · intro td t ts tid hs htd hid hst; subst hs; simp [fetch_matches, htd, hid, hst]
  · intro td t ts tid tnf e hs htd hid hst hev; subst hs
    simp [fetch_matches, htd, hid, hst, hev]
  · intro td t ts tid tnf ed hs htd hid hst hev hres; subst hs
    rcases hres with hres | hres <;> simp [fetch_matches, htd, hid, hst, hev, hres]

/-- Concrete instantiation of `fetch_matches_c2`: a transport error and
a zero-hit search both give the empty list. -/
theorem fetch_matches_c2_witness :
    fetch_matches "Nowhere FC" (.error ()) (fun _ => .error ()) 3 = [] ∧
    fetch_matches "Nowhere FC" (.ok ⟨none⟩) (fun _ => .error ()) 3 = [] :=
  ⟨(fetch_matches_c2 "Nowhere FC" (.error ()) (fun _ => .error ()) 3).1 () rfl,
   (fetch_matches_c2 "Nowhere FC" (.ok ⟨none⟩) (fun _ => .error ()) 3).2.1 ⟨none⟩ rfl rfl⟩

/-- Claim C3, counterexample: on an empty match list the composer does
not return a sentence of the form `"no data for {team}"`; the actual
sentence also embeds the URL. -/
theorem analyze_matches_c3_counterexample :
    analyze_matches (fun _ => "model output") [] "Barcelona" "https://fcb.example" =
      "No match data found for Barcelona from https://fcb.example." ∧
    analyze_matches (fun _ => "model output") [] "Barcelona" "https://fcb.example" ≠
      "no data for Barcelona" := by
  exact ⟨rfl, by decide⟩

/-- Claim C3 (amended): on an empty match list the composer returns the
sentence `"No match data found for {team} from {url}."` and never
invokes the model (the result is independent of the model oracle); on a
non-empty match list it delegates the built prompt to the model. -/
theorem analyze_matches_c3 (llm llm' : String → String) (ml : List String)
    (team url : String) :
    (ml = [] →
      analyze_matches llm ml team url =
        "No match data found for " ++ team ++ " from " ++ url ++ "." ∧
      analyze_matches llm ml team url = analyze_matches llm' ml team url) ∧
    (ml ≠ [] →
      analyze_matches llm ml team url = llm (analysisPrompt ml team url)) := by
  constructor
  · intro h; subst h
    exact ⟨rfl, rfl⟩
  · intro h
    cases ml with
    | nil => exact absurd rfl h
    | cons m ms => rfl

/-- Concrete instantiation of `analyze_matches_c3`: the shortcut fires
on `[]`, and a one-match list reaches the model stub. -/
theorem analyze_matches_c3_witness :
    analyze_matches (fun _ => "REPORT") [] "T" "U" = "No match data found for T from U." ∧
    analyze_matches (fun _ => "REPORT") ["A vs B - 2024-01-01"] "T" "U" = "REPORT" := by
  constructor
  · exact ((analyze_matches_c3 (fun _ => "REPORT") (fun _ => "other") [] "T" "U").1 rfl).1
  · have h := (analyze_matches_c3 (fun _ => "REPORT") (fun _ => "other")
      ["A vs B - 2024-01-01"] "T" "U").2 (by decide)
    rw [h]

/-- Claim C4, counterexample: a transport error raised by
`requests.post` propagates out of the recommendation-path client
(src/recommander.py puts `requests.post`, `raise_for_status` and
`response.json()` outside its `try`), contradicting the claim that
neither path propagates errors. -/
theorem llm_client_c4_counterexample :
    recommander_call_gemini_api (.error ()) = .error () := rfl

/-- Claim C4 (amended): the report path (src/agent.py) catches HTTP
errors, parse failures and malformed shapes, returning `""`; the
recommendation path (src/recommander.py) catches only missing expected
fields (`KeyError`/`IndexError`), returning the placeholder
`"⚠️ No recommendation generated."`, and propagates HTTP errors, bad
statuses and JSON parse failures. -/
theorem llm_client_c4 (post : Except Unit HttpJson) :
    (∀ e, post = .error e → agent_call_gemini_api post = "") ∧
    (∀ r, post = .ok r → 400 ≤ r.status → agent_call_gemini_api post = "") ∧
    (∀ r, post = .ok r → r.json = none → agent_call_gemini_api post = "") ∧
    (∀ r result, post = .ok r → r.status < 400 → r.json = some result →
      geminiChain result = .ok none → agent_call_gemini_api post = "") ∧
    (∀ r result e, post = .ok r → r.status < 400 → r.json = some result →
      geminiChain result = .error e → agent_call_gemini_api post = "") ∧
    (∀ r result, post = .ok r → r.status < 400 → r.json = some result →
      geminiChain result = .ok none →
      recommander_call_gemini_api post = .ok (.str "⚠️ No recommendation generated.")) ∧
    (∀ e, post = .error e → recommander_call_gemini_api post = .error e) ∧
    (∀ r, post = .ok r → 400 ≤ r.status →
      recommander_call_gemini_api post = .error ()) ∧
    (∀ r, post = .ok r → r.json = none → r.status < 400 →
      recommander_call_gemini_api post = .error ()) := by
  refine ⟨?_, ?_, ?_, ?_, ?_, ?_, ?_, ?_, ?_⟩
  · intro e h; subst h; rfl
  · intro r h hs; subst h; simp [agent_call_gemini_api, hs]
  · intro r h hj; subst h
    by_cases hs : 400 ≤ r.status <;> simp [agent_call_gemini_api, hs, hj]
  · intro r result h hs hj hc; subst h
    simp [agent_call_gemini_api, Nat.not_le.mpr hs, hj, hc]
  · intro r result e h hs hj hc; subst h
    simp [agent_call_gemini_api, Nat.not_le.mpr hs, hj, hc]
  · intro r result h hs hj hc; subst h
    simp [recommander_call_gemini_api, Nat.not_le.mpr hs, hj, hc]
  · intro e h; subst h; rfl
  · intro r h hs; subst h; simp [recommander_call_gemini_api, hs]
  · intro r h hj hs; subst h
    simp [recommander_call_gemini_api, Nat.not_le.mpr hs, hj]

/-- Concrete instantiation of `llm_client_c4`: a network error, a 500
status, and a response without a `candidates` field on the report path;
the same malformed response on the recommendation path. -/
theorem llm_client_c4_witness :
    agent_call_gemini_api (.error ()) = "" ∧
    agent_call_gemini_api (.ok ⟨500, some (.obj [])⟩) = "" ∧
    agent_call_gemini_api (.ok ⟨200, some (.obj [])⟩) = "" ∧
    recommander_call_gemini_api (.ok ⟨200, some (.obj [])⟩) =
      .ok (.str "⚠️ No recommendation generated.") := by
  refine ⟨(llm_client_c4 (.error ())).1 () rfl, ?_, ?_, ?_⟩
  · exact (llm_client_c4 (.ok ⟨500, some (.obj [])⟩)).2.1 ⟨500, some (.obj [])⟩ rfl
      (by norm_num)
  · exact (llm_client_c4 (.ok ⟨200, some (.obj [])⟩)).2.2.2.1 ⟨200, some (.obj [])⟩
      (.obj []) rfl (by norm_num) rfl rfl
  · exact (llm_client_c4 (.ok ⟨200, some (.obj [])⟩)).2.2.2.2.2.1 ⟨200, some (.obj [])⟩
      (.obj []) rfl (by norm_num) rfl rfl

/-- Claim C8: the report produced by `run` and the prompt-or-shortcut
decision it reaches are independent of the page-extraction oracle: two
executions agreeing on every other input but differing arbitrarily in
page fetching produce identical prompts and reports (the extraction
result is computed and then discarded). -/
theorem agent_run_c8 (team_name : String) (last_n : Nat)
    (search : Except Unit SearchResp) (events : String → Except Unit EventsResp)
    (serper : Option JVal) (llm : String → String)
    (fetchPage fetchPage' : String → Except Unit HttpResp) :
    agent_run team_name last_n search events serper fetchPage llm =
      agent_run team_name last_n search events serper fetchPage' llm ∧
    agent_run_route team_name last_n search events serper fetchPage =
      agent_run_route team_name last_n search events serper fetchPage' :=
  ⟨rfl, rfl⟩

/-- Claim C9: prompt building and the composer result are pure functions
of the (matches, team, url) triple: two invocations with equal inputs
and the same deterministic model stub return equal prompts and equal
results. -/
theorem analyze_matches_c9 (llm : String → String) (ml ml' : List String)
    (team team' url url' : String) (hm : ml = ml') (ht : team = team')
    (hu : url = url') :
    analysisPrompt ml team url = analysisPrompt ml' team' url' ∧
    analyze_matches llm ml team url = analyze_matches llm ml' team' url' := by
  subst hm; subst ht; subst hu
  exact ⟨rfl, rfl⟩

/-- Concrete instantiation of `analyze_matches_c9`. -/
theorem analyze_matches_c9_witness :
    analysisPrompt ["A vs B - 2024-01-01"] "A" "https://a.example" =
      analysisPrompt ["A vs B - 2024-01-01"] "A" "https://a.example" :=
  (analyze_matches_c9 (fun _ => "R") ["A vs B - 2024-01-01"] ["A vs B - 2024-01-01"]
    "A" "A" "https://a.example" "https://a.example" rfl rfl rfl).1

/-- Claim C10: the constructor raises `ValueError` exactly when the
gemini key or the serper key is the empty string; a successfully
constructed agent stores the two supplied keys, both non-empty. -/
theorem footballAgentInit_c10 (g s : String) :
    ((∃ e, footballAgentInit g s = .error e) ↔ g = "" ∨ s = "") ∧
    (∀ a, footballAgentInit g s = .ok a →
      a.gemini_key = g ∧ a.serper_key = s ∧ g ≠ "" ∧ s ≠ "") := by
  constructor
  · constructor
    · intro ⟨e, he⟩
      by_contra hc
      push_neg at hc
      simp [footballAgentInit, hc.1, hc.2] at he
    · intro h
      rcases h with h | h
      · exact ⟨"GEMINI_API_KEY not set.", by simp [footballAgentInit, h]⟩
      · by_cases hg : g = ""
        · exact ⟨"GEMINI_API_KEY not set.", by simp [footballAgentInit, hg]⟩
        · exact ⟨"SERPER_API_KEY not set.", by simp [footballAgentInit, hg, h]⟩
  · intro a ha
    by_cases hg : g = "" <;> by_cases hs : s = "" <;>
      simp [footballAgentInit, hg, hs] at ha
    exact ⟨by rw [← ha], by rw [← ha], hg, hs⟩

/-- Concrete instantiation of `footballAgentInit_c10`: an empty gemini
key is rejected; a constructed agent carries the supplied keys. -/
theorem footballAgentInit_c10_witness :
    (∃ e, footballAgentInit "" "serper-key" = Except.error e) ∧
    (FootballAgent.mk "gk" "sk").gemini_key = "gk" :=
  ⟨(footballAgentInit_c10 "" "serper-key").1.mpr (Or.inl rfl),
   ((footballAgentInit_c10 "gk" "sk").2 ⟨"gk", "sk"⟩ (by simp [footballAgentInit])).1⟩

/-- Claim C5: the page extractor returns at most 5000 characters,
returns the empty string on a network error or a bad HTTP status, and
returns exactly 5000 characters whenever the cleaned page text is longer
than 5000. -/
theorem extract_page_content_c5 (resp : Except Unit HttpResp) :
    (extract_page_content resp).length ≤ 5000 ∧
    (∀ e, resp = .error e → extract_page_content resp = "") ∧
    (∀ r, resp = .ok r → 400 ≤ r.status → extract_page_content resp = "") ∧
    (∀ r, resp = .ok r → r.status < 400 → 5000 < (cleanPageText r.text.data).length →
      (extract_page_content resp).length = 5000) := by
  refine ⟨?_, ?_, ?_, ?_⟩
  · rcases resp with e | r
    · simp [extract_page_content]
    · by_cases hs : 400 ≤ r.status
      · simp [extract_page_content, hs]
      · have hx : extract_page_content (.ok r) =
            String.mk ((cleanPageText r.text.data).take 5000) := by
          simp [extract_page_content, hs]
        rw [hx]
        have h2 : (String.mk ((cleanPageText r.text.data).take 5000)).length =
            ((cleanPageText r.text.data).take 5000).length := rfl
        rw [h2, List.length_take]
        exact Nat.min_le_left _ _
  · intro e h; subst h; rfl
  · intro r h hs; subst h; simp [extract_page_content, hs]
  · intro r h hs hlong; subst h
    have hx : extract_page_content (.ok r) =
        String.mk ((cleanPageText r.text.data).take 5000) := by
      simp [extract_page_content, Nat.not_le.mpr hs]
    rw [hx]
    have h2 : (String.mk ((cleanPageText r.text.data).take 5000)).length =
        ((cleanPageText r.text.data).take 5000).length := rfl
    rw [h2, List.length_take]
    exact Nat.min_eq_left (Nat.le_of_lt hlong)

/-- A list consisting only of the letter a passes through
`removeBlocksAux` unchanged when the opening tag starts with `<`. -/
theorem removeBlocksAux_all_a (os closeTag : List Char) :
    ∀ fuel l, (∀ c ∈ l, c = 'a') → removeBlocksAux ('<' :: os) closeTag fuel l = l := by
  intro fuel
  induction fuel with
  | zero => intro l _; cases l <;> rfl
  | succ n ih =>
    intro l hl
    cases l with
    | nil => rfl
    | cons c cs =>
      have hc : c = 'a' := hl c (List.mem_cons_self c cs)
      subst hc
      have hm : matchBlockAt ('<' :: os) closeTag ('a' :: cs) = none := by
        have hpre : (('<' :: os).isPrefixOf ('a' :: cs)) = false := rfl
        simp [matchBlockAt, hpre]
      simp only [removeBlocksAux, hm]
      exact congrArg (List.cons 'a')
        (ih cs (fun x hx => hl x (List.mem_cons_of_mem 'a' hx)))

/-- A list consisting only of the letter a passes through `stripTagsAux`
unchanged. -/
theorem stripTagsAux_all_a :
    ∀ fuel l, (∀ c ∈ l, c = 'a') → stripTagsAux fuel l = l := by
  intro fuel
  induction fuel with
  | zero => intro l _; cases l <;> rfl
  | succ n ih =>
    intro l hl
    cases l with
    | nil => rfl
    | cons c cs =>
      have hc : c = 'a' := hl c (List.mem_cons_self c cs)
      subst hc
      simp only [stripTagsAux]
      rw [if_neg (by decide : ¬ ('a' = '<'))]
      exact congrArg (List.cons 'a')
        (ih cs (fun x hx => hl x (List.mem_cons_of_mem 'a' hx)))

/-- A list consisting only of the letter a passes through
`collapseWsAux` unchanged. -/
theorem collapseWsAux_all_a :
    ∀ fuel l, (∀ c ∈ l, c = 'a') → collapseWsAux fuel l = l := by
  intro fuel
  induction fuel with
  | zero => intro l _; cases l <;> rfl
  | succ n ih =>
    intro l hl
    cases l with
    | nil => rfl
    | cons c cs =>
      have hc : c = 'a' := hl c (List.mem_cons_self c cs)
      subst hc
      simp only [collapseWsAux]
      rw [if_neg (by decide : ¬ (pyIsSpace 'a' = true))]
      exact congrArg (List.cons 'a')
        (ih cs (fun x hx => hl x (List.mem_cons_of_mem 'a' hx)))

/-- Cleaning a page of identical plain characters is the identity. -/
theorem cleanPageText_replicate (n : Nat) :
    cleanPageText (List.replicate n 'a') = List.replicate n 'a' := by
  have hmem : ∀ c ∈ List.replicate n 'a', c = 'a' := fun c hc =>
    List.eq_of_mem_replicate hc
  simp only [cleanPageText, removeBlocks]
  rw [removeBlocksAux_all_a _ _ _ _ hmem, removeBlocksAux_all_a _ _ _ _ hmem,
    stripTagsAux_all_a _ _ hmem, collapseWsAux_all_a _ _ hmem]

/-- Concrete instantiation of `extract_page_content_c5`: a 200-status
page of 6000 plain characters cleans to 6000 characters, and the
extractor output has length exactly 5000. -/
theorem extract_page_content_c5_witness :
    (extract_page_content (.ok ⟨200, String.mk (List.replicate 6000 'a')⟩)).length = 5000 :=
  (extract_page_content_c5 (.ok ⟨200, String.mk (List.replicate 6000 'a')⟩)).2.2.2
    ⟨200, String.mk (List.replicate 6000 'a')⟩ rfl (by norm_num)
    (by rw [show (String.mk (List.replicate 6000 'a')).data = List.replicate 6000 'a' from rfl,
          cleanPageText_replicate, List.length_replicate]; norm_num)

/-- The item loop raises exactly when some item is not a dictionary;
otherwise it returns the pure mapping. -/
theorem mapItemsE_eq (items : List JVal) :
    mapItemsE items =
      if items.all isObj then .ok (items.map itemToOrg) else .error () := by
  induction items with
  | nil => rfl
  | cons x xs ih =>
    cases x with
    | obj kvs =>
      cases h : xs.all isObj
      · simp [mapItemsE, itemToOrgE, ih, h, isObj]
      · simp [mapItemsE, itemToOrgE, ih, h, isObj]
    | null => rfl
    | str s => rfl
    | num n => rfl
    | bool b => rfl
    | arr ys => rfl

/-- On a dictionary response the exception-explicit probing loop agrees
with the first-nonempty-array description followed by the item loop. -/
theorem probeKeysE_obj (kvs : List (String × JVal)) (keys : List String) :
    probeKeysE (.obj kvs) keys =
      match firstNonemptyArray (.obj kvs) keys with
      | none => .ok []
      | some [] => .ok []
      | some (item :: rest) => mapItemsE (item :: rest) := by
  induction keys with
  | nil => rfl
  | cons k ks ih =>
    simp only [probeKeysE, jgetE, firstNonemptyArray, jget]
    cases hj : ((kvs.find? (fun p => p.1 == k)).map (fun p => p.2)) with
    | none => exact ih
    | some v =>
      cases v with
      | null => exact ih
      | str s => exact ih
      | num n => exact ih
      | bool b => exact ih
      | obj kvs2 => exact ih
      | arr xs =>
        cases xs with
        | nil => exact ih
        | cons x rest => rfl

/-- The exception-explicit probing loop agrees with the pure one on all
runs that raise nothing. -/
theorem probeKeysE_ok {d : JVal} {keys : List String} {out : List OrgItem}
    (h : probeKeysE d keys = .ok out) : probeKeys d keys = out := by
  induction keys with
  | nil =>
    have h' : ([] : List OrgItem) = out := Except.ok.inj h
    rw [← h']; rfl
  | cons k ks ih =>
    cases d with
    | obj kvs =>
      cases hj : ((kvs.find? (fun p => p.1 == k)).map (fun p => p.2)) with
      | none =>
        simp only [probeKeysE, jgetE, hj] at h
        simp only [probeKeys, jget, hj]
        exact ih h
      | some v =>
        cases v with
        | null =>
          simp only [probeKeysE, jgetE, hj] at h
          simp only [probeKeys, jget, hj]
          exact ih h
        | str s =>
          simp only [probeKeysE, jgetE, hj] at h
          simp only [probeKeys, jget, hj]
          exact ih h
        | num n =>
          simp only [probeKeysE, jgetE, hj] at h
          simp only [probeKeys, jget, hj]
          exact ih h
        | bool b =>
          simp only [probeKeysE, jgetE, hj] at h
          simp only [probeKeys, jget, hj]
          exact ih h
        | obj kvs2 =>
          simp only [probeKeysE, jgetE, hj] at h
          simp only [probeKeys, jget, hj]
          exact ih h
        | arr xs =>
          cases xs with
          | nil =>
            simp only [probeKeysE, jgetE, hj] at h
            simp only [probeKeys, jget, hj]
            exact ih h
          | cons x rest =>
            simp only [probeKeysE, jgetE, hj, mapItemsE_eq] at h
            simp only [probeKeys, jget, hj]
            cases hall : (x :: rest).all isObj
            · rw [hall] at h
              simp at h
            · rw [hall] at h
              simp only [if_true] at h
              exact Except.ok.inj h
    | null => simp [probeKeysE, jgetE] at h
    | str s => simp [probeKeysE, jgetE] at h
    | num n => simp [probeKeysE, jgetE] at h
    | bool b => simp [probeKeysE, jgetE] at h
    | arr xs => simp [probeKeysE, jgetE] at h

/-- Whenever the locator raises no exception, the total variant used by
the `agent_run` plumbing computes the same link. -/
theorem search_official_siteE_agrees (data : Option JVal) (v : Option JVal)
    (h : search_official_siteE data = .ok v) : search_official_site data = v := by
  cases data with
  | none =>
    have hv : (none : Option JVal) = v := Except.ok.inj h
    rw [← hv]; rfl
  | some d =>
    by_cases hf : jfalsy d
    · have he : search_official_siteE (some d) = .ok (none : Option JVal) := by
        simp [search_official_siteE, extract_organic_from_responseE, hf]
      rw [he] at h
      have hv : (none : Option JVal) = v := Except.ok.inj h
      rw [← hv]
      simp [search_official_site, extract_organic_from_response, hf]
    · cases hp : probeKeysE d serperKeys with
      | error e =>
        have he : search_official_siteE (some d) = .error e := by
          simp [search_official_siteE, extract_organic_from_responseE, hf, hp]
        rw [he] at h
        exact absurd h (by simp)
      | ok out =>
        cases out with
        | nil =>
          have he : search_official_siteE (some d) = .ok (none : Option JVal) := by
            simp [search_official_siteE, extract_organic_from_responseE, hf, hp]
          rw [he] at h
          have hv : (none : Option JVal) = v := Except.ok.inj h
          rw [← hv]
          simp [search_official_site, extract_organic_from_response, hf,
            probeKeysE_ok hp]
        | cons r rs =>
          have he : search_official_siteE (some d) = .ok r.link := by
            simp [search_official_siteE, extract_organic_from_responseE, hf, hp]
          rw [he] at h
          have hv : r.link = v := Except.ok.inj h
          rw [← hv]
          simp [search_official_site, extract_organic_from_response, hf,
            probeKeysE_ok hp]

/-- Claim C6, counterexample: on a response whose first candidate array
holds a dictionary followed by a number, the spec-side description picks
the first item and its link "L", but the locator raises an uncaught
`AttributeError` at `item.get("title")` instead of returning it (there
is no `try`/`except` in `_extract_organic_from_response` or
`search_official_site`). -/
theorem search_official_site_c6_counterexample :
    search_official_siteE
        (some (.obj [("organic", .arr [.obj [("link", .str "L")], .num 42])])) =
      .error () ∧
    firstNonemptyArray (.obj [("organic", .arr [.obj [("link", .str "L")], .num 42])])
        serperKeys = some [.obj [("link", .str "L")], .num 42] ∧
    orgLink (.obj [("link", .str "L")]) = some (.str "L") :=
  ⟨rfl, rfl, rfl⟩

/-- Claim C6 (amended): the site locator equals the spec-side
description extended with the raising case the code forces: `none` when
the search request failed, the response is falsy, or no candidate key of
the fixed ordered list yields a non-empty list; the link field of the
first item of the first non-empty candidate array when the response and
all items of that array are dictionaries; and an uncaught
`AttributeError` when the truthy response or any item of the chosen
array is not a dictionary. -/
theorem search_official_site_c6 (data : Option JVal) :
    search_official_siteE data = siteLocatorSpecE data := by
  cases data with
  | none => rfl
  | some d =>
    by_cases hf : jfalsy d
    · simp only [search_official_siteE, extract_organic_from_responseE, hf, if_pos,
        siteLocatorSpecE]
    · cases d with
      | null => exact absurd rfl hf
      | str s =>
        simp only [search_official_siteE, extract_organic_from_responseE, hf,
          Bool.false_eq_true, if_false, serperKeys, probeKeysE, jgetE,
          siteLocatorSpecE, isObj]
      | num n =>
        simp only [search_official_siteE, extract_organic_from_responseE, hf,
          Bool.false_eq_true, if_false, serperKeys, probeKeysE, jgetE,
          siteLocatorSpecE, isObj]
      | bool b =>
        simp only [search_official_siteE, extract_organic_from_responseE, hf,
          Bool.false_eq_true, if_false, serperKeys, probeKeysE, jgetE,
          siteLocatorSpecE, isObj]
      | arr xs =>
        simp only [search_official_siteE, extract_organic_from_responseE, hf,
          Bool.false_eq_true, if_false, serperKeys, probeKeysE, jgetE,
          siteLocatorSpecE, isObj]
      | obj kvs =>
        rcases hfa : firstNonemptyArray (.obj kvs) serperKeys with _ | (_ | ⟨item, rest⟩)
        · simp [search_official_siteE, extract_organic_from_responseE, hf,
            probeKeysE_obj, hfa, siteLocatorSpecE, isObj]
        · simp [search_official_siteE, extract_organic_from_responseE, hf,
            probeKeysE_obj, hfa, siteLocatorSpecE, isObj]
        · cases hall : (item :: rest).all isObj
          · simp [search_official_siteE, extract_organic_from_responseE, hf,
              probeKeysE_obj, hfa, mapItemsE_eq, hall, siteLocatorSpecE, isObj]
          · simp [search_official_siteE, extract_organic_from_responseE, hf,
              probeKeysE_obj, hfa, mapItemsE_eq, hall, siteLocatorSpecE, isObj,
              itemToOrg, OrgItem.link]

/-- Rounding is monotone on the rationals. -/
theorem round_mono_q {x y : ℚ} (h : x ≤ y) : round x ≤ round y := by
  rw [round_eq, round_eq]
  exact Int.floor_le_floor (by linarith)

/-- The function `round2` keeps a value inside an interval whose endpoints are
hundredths. -/
theorem round2_bounds {x : ℚ} {l h : ℤ} (h1 : (l : ℚ) / 100 ≤ x)
    (h2 : x ≤ (h : ℚ) / 100) :
    (l : ℚ) / 100 ≤ round2 x ∧ round2 x ≤ (h : ℚ) / 100 := by
  have hl : (l : ℚ) ≤ x * 100 := by linarith
  have hh : x * 100 ≤ (h : ℚ) := by linarith
  have h1' : l ≤ round (x * 100) := by
    calc l = round ((l : ℚ)) := (round_intCast l).symm
    _ ≤ round (x * 100) := round_mono_q hl
  have h2' : round (x * 100) ≤ h := by
    calc round (x * 100) ≤ round ((h : ℚ)) := round_mono_q hh
    _ = h := round_intCast h
  have c1 : (l : ℚ) ≤ ((round (x * 100) : ℤ) : ℚ) := by exact_mod_cast h1'
  have c2 : ((round (x * 100) : ℤ) : ℚ) ≤ (h : ℚ) := by exact_mod_cast h2'
  unfold round2
  constructor <;> linarith

/-- The map `pyUniform a b` maps the unit interval into `[a, b]`. -/
theorem pyUniform_bounds {a b u : ℚ} (hab : a ≤ b) (h0 : 0 ≤ u) (h1 : u ≤ 1) :
    a ≤ pyUniform a b u ∧ pyUniform a b u ≤ b := by
  unfold pyUniform
  constructor <;> nlinarith

/-- The stub predictor always yields a triple inside the documented
ranges: win in [0.2, 0.6], draw in [0.1, 0.4], lose in [0.2, 0.6],
whatever snapshot it is given. -/
theorem predict_outcome_bounds {α : Type} (ls : α) {u1 u2 u3 : ℚ}
    (hb1 : 0 ≤ u1 ∧ u1 ≤ 1) (hb2 : 0 ≤ u2 ∧ u2 ≤ 1) (hb3 : 0 ≤ u3 ∧ u3 ≤ 1) :
    (0.2 : ℚ) ≤ (predict_outcome ls u1 u2 u3).1 ∧
    (predict_outcome ls u1 u2 u3).1 ≤ 0.6 ∧
    (0.1 : ℚ) ≤ (predict_outcome ls u1 u2 u3).2.1 ∧
    (predict_outcome ls u1 u2 u3).2.1 ≤ 0.4 ∧
    (0.2 : ℚ) ≤ (predict_outcome ls u1 u2 u3).2.2 ∧
    (predict_outcome ls u1 u2 u3).2.2 ≤ 0.6 := by
  have e2 : (0.2 : ℚ) = ((20 : ℤ) : ℚ) / 100 := by norm_num
  have e6 : (0.6 : ℚ) = ((60 : ℤ) : ℚ) / 100 := by norm_num
  have e1 : (0.1 : ℚ) = ((10 : ℤ) : ℚ) / 100 := by norm_num
  have e4 : (0.4 : ℚ) = ((40 : ℤ) : ℚ) / 100 := by norm_num
  have w := pyUniform_bounds (by norm_num : (0.2 : ℚ) ≤ 0.6) hb1.1 hb1.2
  have d := pyUniform_bounds (by norm_num : (0.1 : ℚ) ≤ 0.4) hb2.1 hb2.2
  have l := pyUniform_bounds (by norm_num : (0.2 : ℚ) ≤ 0.6) hb3.1 hb3.2
  have rw2 := round2_bounds (x := pyUniform 0.2 0.6 u1) (l := 20) (h := 60)
    (by rw [← e2]; exact w.1) (by rw [← e6]; exact w.2)
  have rd2 := round2_bounds (x := pyUniform 0.1 0.4 u2) (l := 10) (h := 40)
    (by rw [← e1]; exact d.1) (by rw [← e4]; exact d.2)
  have rl2 := round2_bounds (x := pyUniform 0.2 0.6 u3) (l := 20) (h := 60)
    (by rw [← e2]; exact l.1) (by rw [← e6]; exact l.2)
  refine ⟨?_, ?_, ?_, ?_, ?_, ?_⟩
  · rw [e2]; exact rw2.1
  · rw [e6]; exact rw2.2
  · rw [e1]; exact rd2.1
  · rw [e4]; exact rd2.2
  · rw [e2]; exact rl2.1
  · rw [e6]; exact rl2.2

/-- The loop range `range(5, duration*5+1, 5)` enumerates the minutes
5, 10, ..., 5*duration. -/
theorem pyRange_loop (d : Nat) :
    pyRange 5 (d * 5 + 1) 5 = (List.range d).map (fun i => 5 + 5 * i) := by
  unfold pyRange
  have : (d * 5 + 1 - 5 + 5 - 1) / 5 = d := by omega
  rw [this]

/-- Claim C7: for every duration the recommendation loop performs
exactly `duration` iterations, one per simulated minute
5, 10, ..., 5*duration, with snapshot minute strings "5:00", "10:00",
..., and every iteration's stub prediction triple lies inside the fixed
ranges (win in [0.2, 0.6], draw in [0.1, 0.4], lose in [0.2, 0.6])
regardless of the snapshot. -/
theorem recommender_c7 (team opponent : String) (agent_data : JVal)
    (llm : String → String) (rng : Nat → ℚ) (duration : Nat)
    (hrng : ∀ n, 0 ≤ rng n ∧ rng n ≤ 1) :
    (run_realtime_recommender team opponent agent_data llm rng duration).length =
      duration ∧
    (run_realtime_recommender team opponent agent_data llm rng duration).map
        (fun b => b.minute) =
      (List.range duration).map (fun i => 5 * i + 5) ∧
    (run_realtime_recommender team opponent agent_data llm rng duration).map
        (fun b => b.stats.minute) =
      (List.range duration).map (fun i => Nat.repr (5 * i + 5) ++ ":00") ∧
    ∀ b ∈ run_realtime_recommender team opponent agent_data llm rng duration,
      (0.2 : ℚ) ≤ b.ml_pred.1 ∧ b.ml_pred.1 ≤ 0.6 ∧
      (0.1 : ℚ) ≤ b.ml_pred.2.1 ∧ b.ml_pred.2.1 ≤ 0.4 ∧
      (0.2 : ℚ) ≤ b.ml_pred.2.2 ∧ b.ml_pred.2.2 ≤ 0.6 := by
  refine ⟨?_, ?_, ?_, ?_⟩
  · simp [run_realtime_recommender, pyRange_loop]
  · simp only [run_realtime_recommender, pyRange_loop, List.map_map]
    refine List.map_congr_left ?_
    intro i _
    show (recommenderIter team opponent agent_data llm rng (5 + 5 * i)).minute = 5 * i + 5
    have : (recommenderIter team opponent agent_data llm rng (5 + 5 * i)).minute =
        5 + 5 * i := rfl
    rw [this]; omega
  · simp only [run_realtime_recommender, pyRange_loop, List.map_map]
    refine List.map_congr_left ?_
    intro i _
    show (recommenderIter team opponent agent_data llm rng (5 + 5 * i)).stats.minute =
      Nat.repr (5 * i + 5) ++ ":00"
    have : (recommenderIter team opponent agent_data llm rng (5 + 5 * i)).stats.minute =
        Nat.repr (5 + 5 * i) ++ ":00" := rfl
    rw [this, show 5 + 5 * i = 5 * i + 5 from by omega]
  · intro b hb
    simp only [run_realtime_recommender, List.mem_map] at hb
    obtain ⟨minute, _, rfl⟩ := hb
    have hp : (recommenderIter team opponent agent_data llm rng minute).ml_pred =
        predict_outcome
          ((recommenderIter team opponent agent_data llm rng minute).stats)
          (rng (drawsPerIter * ((minute - 5) / 5) + 7))
          (rng (drawsPerIter * ((minute - 5) / 5) + 8))
          (rng (drawsPerIter * ((minute - 5) / 5) + 9)) := rfl
    rw [hp]
    exact predict_outcome_bounds _ (hrng _) (hrng _) (hrng _)

/-- Concrete instantiation of `recommender_c7`: duration 2, an
all-zeros random stream and a silent model stub give exactly the blocks
for minutes "5:00" and "10:00". -/
theorem recommender_c7_witness :
    (run_realtime_recommender "Barcelona" "Real Madrid" .null (fun _ => "")
        (fun _ => 0) 2).map (fun b => b.stats.minute) = ["5:00", "10:00"] := by
  have h := (recommender_c7 "Barcelona" "Real Madrid" .null (fun _ => "")
    (fun _ => 0) 2 (fun n => ⟨le_refl 0, by norm_num⟩)).2.2.1
  rw [h]
  rfl
